import Mathlib

/-
  Verification development for the pgpx connection layer.

  Shallow embedding of src/pgpx/connection.py, src/pgpx/exceptions.py and
  src/pgpx/types.py.  Python objects become Lean structures, stateful methods
  become explicit state-passing functions returning
  `Except PyError result × state` (the `Except` error is the raised Python
  exception), and the external psycopg driver is modelled by an oracle
  (`DriverOutcome`) describing what `psycopg.connect` would do and a
  `Resource` describing the physical connection object it would return.
-/

namespace Pgpx

/-- A `psycopg.Error` raised by the driver; `msg` is its `str()` rendering. -/
structure DriverError where
  msg : String
deriving DecidableEq

/-- The physical connection object returned by `psycopg.connect`.
`closed` is its `.closed` attribute (it can be set out-of-band by the
backend); `closeRaises` says whether calling `.close()` on it raises. -/
structure Resource where
  closed : Bool
  closeRaises : Bool
deriving DecidableEq

/-- A raised Python exception, as observed by this layer.  For
`connectionError` (the library's `ConnectionError(PgpxError)` class) we track
the message, the explicit chained cause (`raise ... from e` sets it, a plain
`raise` leaves it `None`) and the implicit context (set automatically by
Python when raising inside an `except` block). -/
inductive PyError where
  | psycopgError (e : DriverError)
  | connectionError (msg : String) (cause : Option DriverError) (context : Option DriverError)
  | otherError (msg : String)
deriving DecidableEq

/-- The explicit chained cause of a raised exception (Python `__cause__`). -/
def PyError.cause : PyError → Option DriverError
  | .connectionError _ c _ => c
  | _ => none

/-- The implicit context of a raised exception (Python `__context__`). -/
def PyError.context : PyError → Option DriverError
  | .connectionError _ _ ctx => ctx
  | _ => none

/-- Scalar values that may appear in a parameter mapping or a result row. -/
inductive PyVal where
  | int (n : Int)
  | str (s : String)
  | bool (b : Bool)
  | none_
deriving DecidableEq

/-- A Python `dict` of connection parameters, as an association list. -/
abbrev ParamsDict := List (String × PyVal)

/-- The argument passed as `connection_params`.  The source inspects it only
through `hasattr(params, "to_dict")` and `isinstance(params, dict)`, so the
embedding records exactly those two capabilities: `to_dict = some d` when the
object exposes a `to_dict()` method returning `d`, and `as_dict = some d`
when the object is a plain `dict` with entries `d`.  A plain `dict` has no
`to_dict` attribute; an arbitrary other object (e.g. a string) has neither. -/
structure ParamsInput where
  to_dict : Option ParamsDict
  as_dict : Option ParamsDict
deriving DecidableEq

/-- What the external `psycopg.connect` call would do when invoked. -/
inductive DriverOutcome where
  | success (r : Resource)
  | failure (e : DriverError)
deriving DecidableEq

/-- How the body of a `with` block exits: normally, or by raising. -/
inductive BodyOutcome where
  | normal
  | raises (e : PyError)
deriving DecidableEq

/-- `Resource.close()`: raises when the driver object's close fails,
otherwise marks the resource closed. -/
def Resource.close (r : Resource) : Except PyError Resource :=
  if r.closeRaises then .error (.otherError "close failed")
  else .ok { r with closed := true }

/-- State of a `DatabaseConnection` instance: the normalized parameter dict
and the `_connection` attribute (`None` or the held driver resource).
(The source also sets `self._transaction_manager = None` in `__init__`; it is
never read in this module, so it is omitted.) -/
structure DatabaseConnection where
  connection_params : ParamsDict
  _connection : Option Resource
deriving DecidableEq

/-- `DatabaseConnection._normalize_params`: if the argument has a `to_dict`
attribute, return `params.to_dict()`; else return it if it is a `dict`, else
return the empty dict. -/
def _normalize_params (params : ParamsInput) : ParamsDict :=
  match params.to_dict with
  | some d => d
  | none =>
    match params.as_dict with
    | some d => d
    | none => []

/-- `DatabaseConnection.__init__`: stores the normalized parameters, with
`_connection` initially `None`. -/
def DatabaseConnection.init (connection_params : ParamsInput) : DatabaseConnection :=
  { connection_params := _normalize_params connection_params
    _connection := none }

/-- `DatabaseConnection.connect`: `self._connection = psycopg.connect(**...)`
then `return self`; on `psycopg.Error as e` it raises
`ConnectionError(f"Failed to connect to database: {e}")`.  The raise has no
`from e`, so the cause is `None` while Python implicitly attaches `e` as the
context; and since the assignment never ran, `_connection` keeps its previous
value. -/
def DatabaseConnection.connect (driver : DriverOutcome) (c : DatabaseConnection) :
    Except PyError DatabaseConnection × DatabaseConnection :=
  match driver with
  | .success r =>
    let c1 := { c with _connection := some r }
    (.ok c1, c1)
  | .failure e =>
    (.error (.connectionError ("Failed to connect to database: " ++ e.msg) none (some e)), c)

/-- `DatabaseConnection.disconnect`: if `self._connection` (truthy iff not
`None`, since driver connection objects define no `__bool__`), try to close
it, ignore any error during cleanup, and in the `finally` clause set
`self._connection = None`. -/
def DatabaseConnection.disconnect (c : DatabaseConnection) :
    Except PyError Unit × DatabaseConnection :=
  match c._connection with
  | none => (.ok (), c)
  | some r =>
    match r.close with
    | .ok _ => (.ok (), { c with _connection := none })
    | .error _ => (.ok (), { c with _connection := none })

/-- The `DatabaseConnection.connection` property: raises
`ConnectionError("Not connected to database")` when `self._connection` is
falsy (i.e. `None`), otherwise returns the held resource — the `.closed`
attribute is not consulted. -/
def DatabaseConnection.connection (c : DatabaseConnection) : Except PyError Resource :=
  match c._connection with
  | none => .error (.connectionError "Not connected to database" none none)
  | some r => .ok r

/-- `DatabaseConnection.is_connected`:
`self._connection is not None and not self._connection.closed`. -/
def DatabaseConnection.is_connected (c : DatabaseConnection) : Bool :=
  match c._connection with
  | none => false
  | some r => !r.closed

/-- A full `with DatabaseConnection(...) ...` scope: `__enter__` is
`self.connect()` (if it raises, the body and `__exit__` never run);
`__exit__` unconditionally calls `self.disconnect()` and, returning `None`,
propagates any exception raised by the body. -/
def DatabaseConnection.with_scope (driver : DriverOutcome) (body : BodyOutcome)
    (c : DatabaseConnection) : Except PyError Unit × DatabaseConnection :=
  match DatabaseConnection.connect driver c with
  | (.error e, c1) => (.error e, c1)
  | (.ok _, c1) =>
    let c2 := (DatabaseConnection.disconnect c1).2
    match body with
    | .normal => (.ok (), c2)
    | .raises e => (.error e, c2)

/-- State of a `DatabaseClient`: the raw parameters it stored and its owned
`DatabaseConnection`. -/
structure DatabaseClient where
  connection_params : ParamsInput
  _connection : DatabaseConnection
deriving DecidableEq

/-- `DatabaseClient.__init__`: stores the parameters, creates a
`DatabaseConnection`, and when `auto_connect` (default `True`) immediately
calls `connect()` on it — a failure there propagates out of construction. -/
def DatabaseClient.init (connection_params : ParamsInput) (auto_connect : Bool)
    (driver : DriverOutcome) : Except PyError DatabaseClient :=
  let cl : DatabaseClient :=
    { connection_params
      _connection := DatabaseConnection.init connection_params }
  if auto_connect then
    match DatabaseConnection.connect driver cl._connection with
    | (.error e, _) => .error e
    | (.ok _, c1) => .ok { cl with _connection := c1 }
  else
    .ok cl

/-- `DatabaseClient.is_connected`: delegates to the owned connection. -/
def DatabaseClient.is_connected (cl : DatabaseClient) : Bool :=
  cl._connection.is_connected

/-- `DatabaseClient.connect`: connects the owned handle only when it is not
already connected, then returns self. -/
def DatabaseClient.connect (driver : DriverOutcome) (cl : DatabaseClient) :
    Except PyError DatabaseClient × DatabaseClient :=
  if cl._connection.is_connected then (.ok cl, cl)
  else
    match DatabaseConnection.connect driver cl._connection with
    | (.error e, c1) => (.error e, { cl with _connection := c1 })
    | (.ok _, c1) =>
      let cl1 := { cl with _connection := c1 }
      (.ok cl1, cl1)

/-- `DatabaseClient.disconnect`: delegates to the owned connection. -/
def DatabaseClient.disconnect (cl : DatabaseClient) :
    Except PyError Unit × DatabaseClient :=
  let (res, c1) := cl._connection.disconnect
  (res, { cl with _connection := c1 })

/-- A full `with DatabaseClient(...) ...` scope: `__enter__` is
`self.connect()` then `return self`; `__exit__` is `pass` — it touches no
state at all, for both normal and exceptional exits. -/
def DatabaseClient.with_scope (driver : DriverOutcome) (body : BodyOutcome)
    (cl : DatabaseClient) : Except PyError Unit × DatabaseClient :=
  match DatabaseClient.connect driver cl with
  | (.error e, cl1) => (.error e, cl1)
  | (.ok _, cl1) =>
    match body with
    | .normal => (.ok (), cl1)
    | .raises e => (.error e, cl1)

/-
  Embedding of src/pgpx/types.py: the enumerated vocabularies and the clause
  value types.  A Python `Enum` becomes an inductive type with a `value`
  string map; the `E("literal")` value-lookup constructor becomes a search of
  the member list for a matching value, returning `none` where Python raises
  `ValueError` (so an unrecognized literal is never accepted).
-/

/-- Python `E(s)` value lookup over the member list of an enum. -/
def enumLookup {α : Type} (value : α → String) (members : List α) (s : String) : Option α :=
  members.find? (fun e => value e == s)

/-- The `ConflictAction` enum. -/
inductive ConflictAction where
  | DO_NOTHING
  | DO_UPDATE
deriving DecidableEq

/-- The `.value` strings of `ConflictAction`. -/
def ConflictAction.value : ConflictAction → String
  | .DO_NOTHING => "DO NOTHING"
  | .DO_UPDATE => "DO UPDATE"

/-- All members of `ConflictAction`, in declaration order. -/
def ConflictAction.members : List ConflictAction := [.DO_NOTHING, .DO_UPDATE]

/-- `ConflictAction(s)` value lookup. -/
def ConflictAction.fromValue (s : String) : Option ConflictAction :=
  enumLookup ConflictAction.value ConflictAction.members s

/-- The `FieldType` enum. -/
inductive FieldType where
  | TEXT
  | INTEGER
  | FLOAT
  | BOOLEAN
  | BYTEA
  | TIMESTAMP
  | DATE
  | UUID
  | JSON
  | JSONB
  | ARRAY
deriving DecidableEq

/-- The `.value` strings of `FieldType`. -/
def FieldType.value : FieldType → String
  | .TEXT => "TEXT"
  | .INTEGER => "INTEGER"
  | .FLOAT => "FLOAT"
  | .BOOLEAN => "BOOLEAN"
  | .BYTEA => "BYTEA"
  | .TIMESTAMP => "TIMESTAMP"
  | .DATE => "DATE"
  | .UUID => "UUID"
  | .JSON => "JSON"
  | .JSONB => "JSONB"
  | .ARRAY => "ARRAY"

/-- All members of `FieldType`, in declaration order. -/
def FieldType.members : List FieldType :=
  [.TEXT, .INTEGER, .FLOAT, .BOOLEAN, .BYTEA, .TIMESTAMP, .DATE, .UUID, .JSON, .JSONB, .ARRAY]

/-- `FieldType(s)` value lookup. -/
def FieldType.fromValue (s : String) : Option FieldType :=
  enumLookup FieldType.value FieldType.members s

/-- The `JoinType` enum. -/
inductive JoinType where
  | INNER
  | LEFT
  | RIGHT
  | FULL
deriving DecidableEq

/-- The `.value` strings of `JoinType`. -/
def JoinType.value : JoinType → String
  | .INNER => "INNER JOIN"
  | .LEFT => "LEFT JOIN"
  | .RIGHT => "RIGHT JOIN"
  | .FULL => "FULL JOIN"

/-- All members of `JoinType`, in declaration order. -/
def JoinType.members : List JoinType := [.INNER, .LEFT, .RIGHT, .FULL]

/-- `JoinType(s)` value lookup. -/
def JoinType.fromValue (s : String) : Option JoinType :=
  enumLookup JoinType.value JoinType.members s

/-- The `ComparisonOperator` enum. -/
inductive ComparisonOperator where
  | EQ
  | NE
  | LT
  | LTE
  | GT
  | GTE
  | LIKE
  | ILIKE
  | IN
  | NOT_IN
  | IS_NULL
  | IS_NOT_NULL
  | BETWEEN
  | EXISTS
deriving DecidableEq

/-- The `.value` strings of `ComparisonOperator`. -/
def ComparisonOperator.value : ComparisonOperator → String
  | .EQ => "="
  | .NE => "!="
  | .LT => "<"
  | .LTE => "<="
  | .GT => ">"
  | .GTE => ">="
  | .LIKE => "LIKE"
  | .ILIKE => "ILIKE"
  | .IN => "IN"
  | .NOT_IN => "NOT IN"
  | .IS_NULL => "IS NULL"
  | .IS_NOT_NULL => "IS NOT NULL"
  | .BETWEEN => "BETWEEN"
  | .EXISTS => "EXISTS"

/-- All members of `ComparisonOperator`, in declaration order. -/
def ComparisonOperator.members : List ComparisonOperator :=
  [.EQ, .NE, .LT, .LTE, .GT, .GTE, .LIKE, .ILIKE, .IN, .NOT_IN,
   .IS_NULL, .IS_NOT_NULL, .BETWEEN, .EXISTS]

/-- `ComparisonOperator(s)` value lookup. -/
def ComparisonOperator.fromValue (s : String) : Option ComparisonOperator :=
  enumLookup ComparisonOperator.value ComparisonOperator.members s

/-- The `LogicalOperator` enum. -/
inductive LogicalOperator where
  | AND
  | OR
  | NOT
deriving DecidableEq

/-- The `.value` strings of `LogicalOperator`. -/
def LogicalOperator.value : LogicalOperator → String
  | .AND => "AND"
  | .OR => "OR"
  | .NOT => "NOT"

/-- All members of `LogicalOperator`, in declaration order. -/
def LogicalOperator.members : List LogicalOperator := [.AND, .OR, .NOT]

/-- `LogicalOperator(s)` value lookup. -/
def LogicalOperator.fromValue (s : String) : Option LogicalOperator :=
  enumLookup LogicalOperator.value LogicalOperator.members s

/-- The `MigrationDirection` enum. -/
inductive MigrationDirection where
  | UP
  | DOWN
deriving DecidableEq

/-- The `.value` strings of `MigrationDirection`. -/
def MigrationDirection.value : MigrationDirection → String
  | .UP => "up"
  | .DOWN => "down"

/-- All members of `MigrationDirection`, in declaration order. -/
def MigrationDirection.members : List MigrationDirection := [.UP, .DOWN]

/-- `MigrationDirection(s)` value lookup. -/
def MigrationDirection.fromValue (s : String) : Option MigrationDirection :=
  enumLookup MigrationDirection.value MigrationDirection.members s

/-- The `IsolationLevel` enum. -/
inductive IsolationLevel where
  | READ_UNCOMMITTED
  | READ_COMMITTED
  | REPEATABLE_READ
  | SERIALIZABLE
deriving DecidableEq

/-- The `.value` strings of `IsolationLevel`. -/
def IsolationLevel.value : IsolationLevel → String
  | .READ_UNCOMMITTED => "READ UNCOMMITTED"
  | .READ_COMMITTED => "READ COMMITTED"
  | .REPEATABLE_READ => "REPEATABLE READ"
  | .SERIALIZABLE => "SERIALIZABLE"

/-- All members of `IsolationLevel`, in declaration order. -/
def IsolationLevel.members : List IsolationLevel :=
  [.READ_UNCOMMITTED, .READ_COMMITTED, .REPEATABLE_READ, .SERIALIZABLE]

/-- `IsolationLevel(s)` value lookup. -/
def IsolationLevel.fromValue (s : String) : Option IsolationLevel :=
  enumLookup IsolationLevel.value IsolationLevel.members s

/-- The `RelationshipType` enum. -/
inductive RelationshipType where
  | ONE_TO_ONE
  | ONE_TO_MANY
  | MANY_TO_ONE
  | MANY_TO_MANY
deriving DecidableEq

/-- The `.value` strings of `RelationshipType`. -/
def RelationshipType.value : RelationshipType → String
  | .ONE_TO_ONE => "one-to-one"
  | .ONE_TO_MANY => "one-to-many"
  | .MANY_TO_ONE => "many-to-one"
  | .MANY_TO_MANY => "many-to-many"

/-- All members of `RelationshipType`, in declaration order. -/
def RelationshipType.members : List RelationshipType :=
  [.ONE_TO_ONE, .ONE_TO_MANY, .MANY_TO_ONE, .MANY_TO_MANY]

/-- `RelationshipType(s)` value lookup. -/
def RelationshipType.fromValue (s : String) : Option RelationshipType :=
  enumLookup RelationshipType.value RelationshipType.members s

/-- A Python class object, observed through its `__name__`. -/
structure PyType where
  name : String
deriving DecidableEq

/-- A result row: a `dict` from column names to values. -/
abbrev RowData := List (String × PyVal)

/-- Every clause value type in the source is declared with a bare
`@dataclass` decorator — `frozen=True` is nowhere passed — so Python
generates ordinary mutable classes: field assignment after construction is
permitted.  (`@dataclass(frozen=True)` would instead raise
`FrozenInstanceError` on assignment.) -/
def clauseDataclassFrozen : Bool := false

/-- The `JoinClause` dataclass, with its declared defaults.  The source
fields `on` and `alias` are reserved words in Lean, so they carry a trailing
underscore here. -/
structure JoinClause where
  table : String
  on_ : String
  join_type : JoinType := .INNER
  alias_ : Option String := none
deriving DecidableEq

/-- Python field assignment `jc.table = v` on a `JoinClause`: raises only
when the dataclass is frozen, which it is not. -/
def JoinClause.setattr_table (jc : JoinClause) (v : String) : Except PyError JoinClause :=
  if clauseDataclassFrozen then .error (.otherError "cannot assign to field")
  else .ok { jc with table := v }

/-- The `WhereClause` dataclass, with its declared defaults. -/
structure WhereClause where
  column : String
  operator : ComparisonOperator
  value : PyVal
  logical_op : LogicalOperator := .AND
deriving DecidableEq

/-- Python field assignment `wc.column = v` on a `WhereClause`. -/
def WhereClause.setattr_column (wc : WhereClause) (v : String) : Except PyError WhereClause :=
  if clauseDataclassFrozen then .error (.otherError "cannot assign to field")
  else .ok { wc with column := v }

/-- The `OrderByClause` dataclass, with its declared default. -/
structure OrderByClause where
  column : String
  ascending : Bool := true
deriving DecidableEq

/-- Python field assignment `oc.column = v` on an `OrderByClause`. -/
def OrderByClause.setattr_column (oc : OrderByClause) (v : String) :
    Except PyError OrderByClause :=
  if clauseDataclassFrozen then .error (.otherError "cannot assign to field")
  else .ok { oc with column := v }

/-- The `ForeignKeyReference` dataclass, with its declared default. -/
structure ForeignKeyReference where
  model : PyType
  field : String := "id"
deriving DecidableEq

/-- Python field assignment `fr.field = v` on a `ForeignKeyReference`. -/
def ForeignKeyReference.setattr_field (fr : ForeignKeyReference) (v : String) :
    Except PyError ForeignKeyReference :=
  if clauseDataclassFrozen then .error (.otherError "cannot assign to field")
  else .ok { fr with field := v }

/-- `ForeignKeyReference.__str__`:
`f"{self.model.__name__.lower()}.{self.field}"`. -/
def ForeignKeyReference.py_str (fr : ForeignKeyReference) : String :=
  fr.model.name.toLower ++ "." ++ fr.field

/-- The `RelationshipInfo` dataclass, with its declared defaults. -/
structure RelationshipInfo where
  name : String
  related_model : PyType
  foreign_key : String
  back_populates : Option String := none
  lazy : Bool := true
  cascade : Option (List String) := none
deriving DecidableEq

/-- Python field assignment `ri.name = v` on a `RelationshipInfo`. -/
def RelationshipInfo.setattr_name (ri : RelationshipInfo) (v : String) :
    Except PyError RelationshipInfo :=
  if clauseDataclassFrozen then .error (.otherError "cannot assign to field")
  else .ok { ri with name := v }

/-- The `ForeignKeyInfo` dataclass, with its declared defaults. -/
structure ForeignKeyInfo where
  field : String
  ref_table : String
  ref_field : String := "id"
  on_delete : String := "CASCADE"
  on_update : String := "CASCADE"
deriving DecidableEq

/-- Python field assignment `fi.field = v` on a `ForeignKeyInfo`. -/
def ForeignKeyInfo.setattr_field (fi : ForeignKeyInfo) (v : String) :
    Except PyError ForeignKeyInfo :=
  if clauseDataclassFrozen then .error (.otherError "cannot assign to field")
  else .ok { fi with field := v }

/-- The `QueryResult` container: the row list and the affected-row count
(defaulting to 0 in the source). -/
structure QueryResult where
  data : List RowData
  affected_rows : Int := 0
deriving DecidableEq

/-- `QueryResult.__bool__`: `bool(self.data)` — true iff the row list is
non-empty. -/
def QueryResult.py_bool (q : QueryResult) : Bool :=
  !q.data.isEmpty

/-- `QueryResult.__len__`: `len(self.data)`. -/
def QueryResult.py_len (q : QueryResult) : Nat :=
  q.data.length

/-- `QueryResult.first`: `self.data[0] if self.data else None`. -/
def QueryResult.first (q : QueryResult) : Option RowData :=
  match q.data with
  | [] => none
  | row :: _ => some row

/-- `QueryResult.last`: `self.data[-1] if self.data else None`. -/
def QueryResult.last (q : QueryResult) : Option RowData :=
  q.data.getLast?

/-
  Theorems.  Helper lemmas come first; each claim of the specification then
  gets exactly one theorem (with counterexamples and witnesses where needed).
-/

/-- Helper: `disconnect` always returns normally and always clears the
resource reference, whatever the held resource does on close. -/
theorem disconnect_eq (c : DatabaseConnection) :
    DatabaseConnection.disconnect c = (.ok (), { c with _connection := none }) := by
  rcases c with ⟨p, conn⟩
  cases conn with
  | none => rfl
  | some r => cases hc : Resource.close r <;> simp [DatabaseConnection.disconnect, hc]

/-- Helper: an enum value lookup only ever succeeds on the exact `.value`
string of the member it returns. -/
theorem enumLookup_sound {α : Type} (value : α → String) (members : List α)
    (s : String) (e : α) (h : enumLookup value members s = some e) : value e = s := by
  have h1 : members.find? (fun x => value x == s) = some e := h
  have h2 := List.find?_some h1
  exact eq_of_beq h2

/-- C1: for every ConnectionHandle and every scoped (context-manager) use of
it whose body ran, whether the body completes normally or exits via a raised
exception, exit calls disconnect, so after the scope ends is_connected is
false. -/
theorem connection_scope_always_disconnected (c : DatabaseConnection) (r : Resource)
    (body : BodyOutcome) :
    DatabaseConnection.is_connected
      (DatabaseConnection.with_scope (.success r) body c).2 = false := by
  cases body <;>
    simp [DatabaseConnection.with_scope, DatabaseConnection.connect, disconnect_eq,
      DatabaseConnection.is_connected]

/-- C2: scoped-acquisition exit on a PersistentClient performs no disconnect:
for both normal and exceptional body exit, the state after the full scope is
exactly the state after enter (the internal `connect()`), so in particular a
client connected inside the scope is still connected afterwards. -/
theorem client_scope_exit_preserves_state (cl : DatabaseClient) (driver : DriverOutcome)
    (body : BodyOutcome) :
    (DatabaseClient.with_scope driver body cl).2 = (DatabaseClient.connect driver cl).2 ∧
    DatabaseClient.is_connected (DatabaseClient.with_scope driver body cl).2
      = DatabaseClient.is_connected (DatabaseClient.connect driver cl).2 := by
  have h : (DatabaseClient.with_scope driver body cl).2
      = (DatabaseClient.connect driver cl).2 := by
    unfold DatabaseClient.with_scope
    cases hc : DatabaseClient.connect driver cl with
    | mk res st => cases res <;> cases body <;> simp
  exact ⟨h, by rw [h]⟩

/-- C3 counterexample: at the concrete driver failure "boom" on a fresh
handle, connect does raise the domain ConnectionError with the interpolated
message, but the raised error's explicit cause is None — the plain `raise`
has no `from e` — so the original failure is not attached as the error's
cause (only as its implicit context). -/
theorem connect_failure_cause_counterexample :
    (DatabaseConnection.connect (.failure ⟨"boom"⟩)
        (DatabaseConnection.init ⟨none, none⟩)).1 =
      .error (.connectionError "Failed to connect to database: boom" none (some ⟨"boom"⟩)) ∧
    PyError.cause
        (.connectionError "Failed to connect to database: boom" none (some ⟨"boom"⟩))
      ≠ some ⟨"boom"⟩ := by
  exact ⟨rfl, by decide⟩

/-- C3 amended: every driver failure inside connect is re-raised as the
domain ConnectionError (never the raw driver exception type) whose message
interpolates the original failure's message; the original failure is attached
implicitly as the error's context, while the explicit cause is left None. -/
theorem connect_failure_wraps_driver_error (c : DatabaseConnection) (e : DriverError) :
    (DatabaseConnection.connect (.failure e) c).1 =
      .error (.connectionError ("Failed to connect to database: " ++ e.msg) none (some e)) :=
  rfl

/-- C4 counterexample: on a handle already holding a live resource, a failed
connect leaves the old reference in place, so is_connected is still true
right after the failed connect — the claim's "disconnected with the resource
reference cleared, in any state" is false. -/
theorem connect_failure_state_counterexample :
    DatabaseConnection.is_connected
      (DatabaseConnection.connect (.failure ⟨"boom"⟩)
        { connection_params := [],
          _connection := some { closed := false, closeRaises := false } }).2 = true :=
  rfl

/-- C4 amended: a failed connect leaves the handle state exactly unchanged
(the assignment never ran); in particular a handle that held no resource
before the attempt — freshly constructed, or after disconnect — still
reports is_connected false after the failed connect. -/
theorem connect_failure_leaves_state_unchanged (c : DatabaseConnection) (e : DriverError)
    (p : ParamsInput) :
    (DatabaseConnection.connect (.failure e) c).2 = c ∧
    DatabaseConnection.is_connected
      (DatabaseConnection.connect (.failure e) (DatabaseConnection.init p)).2 = false :=
  ⟨rfl, rfl⟩

/-- C5 counterexample: a handle holding a resource that reports itself closed
has is_connected false, yet the connection accessor does not raise — it
silently returns the closed resource — so "raises iff is_connected is false"
is false. -/
theorem connection_accessor_counterexample :
    DatabaseConnection.is_connected
      { connection_params := [],
        _connection := some { closed := true, closeRaises := false } } = false ∧
    DatabaseConnection.connection
      { connection_params := [],
        _connection := some { closed := true, closeRaises := false } } =
      .ok { closed := true, closeRaises := false } :=
  ⟨rfl, rfl⟩

/-- C5 amended: the connection accessor raises the not-connected
ConnectionError iff no resource reference is held; whenever a resource is
held it is returned as-is, even when it reports itself closed (a state in
which is_connected is false). -/
theorem connection_accessor_raises_iff_no_resource (c : DatabaseConnection) :
    (c._connection = none →
      DatabaseConnection.connection c =
        .error (.connectionError "Not connected to database" none none)) ∧
    (∀ r : Resource, c._connection = some r → DatabaseConnection.connection c = .ok r) := by
  constructor
  · intro h
    simp [DatabaseConnection.connection, h]
  · intro r h
    simp [DatabaseConnection.connection, h]

/-- C5 witness: both branches of the amended accessor contract, at concrete
handle states. -/
theorem connection_accessor_raises_iff_no_resource_witness :
    DatabaseConnection.connection { connection_params := [], _connection := none } =
      .error (.connectionError "Not connected to database" none none) ∧
    DatabaseConnection.connection
        { connection_params := [],
          _connection := some { closed := false, closeRaises := false } } =
      .ok { closed := false, closeRaises := false } :=
  ⟨(connection_accessor_raises_iff_no_resource
      { connection_params := [], _connection := none }).1 rfl,
   (connection_accessor_raises_iff_no_resource
      { connection_params := [],
        _connection := some { closed := false, closeRaises := false } }).2
      { closed := false, closeRaises := false } rfl⟩

/-- C6: disconnect never raises — it returns normally in every state, is a
no-op when no resource is held (the returned state equals the input by the
update below), clears the resource reference even when closing failed, and
leaves is_connected false after every call. -/
theorem disconnect_never_raises_and_clears (c : DatabaseConnection) :
    DatabaseConnection.disconnect c = (.ok (), { c with _connection := none }) ∧
    DatabaseConnection.is_connected (DatabaseConnection.disconnect c).2 = false := by
  refine ⟨disconnect_eq c, ?_⟩
  rw [disconnect_eq c]
  rfl

/-- C7 counterexample: field assignment on an existing JoinClause succeeds
and changes its table field — the clause dataclasses are not frozen — so "no
operation can change a field of an existing instance" is false. -/
theorem clause_mutation_counterexample :
    JoinClause.setattr_table
        { table := "users", on_ := "users.id = posts.user_id" } "posts" =
      .ok { table := "posts", on_ := "users.id = posts.user_id" } ∧
    ("posts" : String) ≠ "users" := by
  exact ⟨rfl, by decide⟩

/-- C7 amended: the clause value types are plain (non-frozen) dataclasses:
assigning a field of an existing instance of any of the six types succeeds
and yields the instance with that field changed; immutability is not
enforced. -/
theorem clause_setattr_mutates (jc : JoinClause) (wc : WhereClause) (oc : OrderByClause)
    (fr : ForeignKeyReference) (ri : RelationshipInfo) (fi : ForeignKeyInfo) (v : String) :
    JoinClause.setattr_table jc v = .ok { jc with table := v } ∧
    WhereClause.setattr_column wc v = .ok { wc with column := v } ∧
    OrderByClause.setattr_column oc v = .ok { oc with column := v } ∧
    ForeignKeyReference.setattr_field fr v = .ok { fr with field := v } ∧
    RelationshipInfo.setattr_name ri v = .ok { ri with name := v } ∧
    ForeignKeyInfo.setattr_field fi v = .ok { fi with field := v } :=
  ⟨rfl, rfl, rfl, rfl, rfl, rfl⟩

/-- C8: at construction, a plain mapping is stored as-is, an object exposing
to_dict is stored as the result of that conversion, any other input
normalizes to the empty mapping, and in general the stored parameters are
exactly the normalization of the input (the normalization is total, so
construction never raises). -/
theorem normalize_params_cases (d conv : ParamsDict) (isd : Option ParamsDict)
    (p : ParamsInput) :
    (DatabaseConnection.init { to_dict := none, as_dict := some d }).connection_params = d ∧
    (DatabaseConnection.init { to_dict := some conv, as_dict := isd }).connection_params
      = conv ∧
    (DatabaseConnection.init { to_dict := none, as_dict := none }).connection_params = [] ∧
    (DatabaseConnection.init p).connection_params = _normalize_params p :=
  ⟨rfl, rfl, rfl, rfl⟩

/-- C9: every member of every enumerated vocabulary round-trips — looking the
member up from its literal string yields that member back — and no vocabulary
accepts an unrecognized member: a lookup succeeds only on the exact literal
of the member it returns; including the sample literals for
ComparisonOperator.EQ and IsolationLevel.SERIALIZABLE. -/
theorem enum_vocabulary_roundtrip :
    (∀ e : ConflictAction, ConflictAction.fromValue e.value = some e) ∧
    (∀ (s : String) (e : ConflictAction), ConflictAction.fromValue s = some e → e.value = s) ∧
    (∀ e : FieldType, FieldType.fromValue e.value = some e) ∧
    (∀ (s : String) (e : FieldType), FieldType.fromValue s = some e → e.value = s) ∧
    (∀ e : JoinType, JoinType.fromValue e.value = some e) ∧
    (∀ (s : String) (e : JoinType), JoinType.fromValue s = some e → e.value = s) ∧
    (∀ e : ComparisonOperator, ComparisonOperator.fromValue e.value = some e) ∧
    (∀ (s : String) (e : ComparisonOperator),
      ComparisonOperator.fromValue s = some e → e.value = s) ∧
    (∀ e : LogicalOperator, LogicalOperator.fromValue e.value = some e) ∧
    (∀ (s : String) (e : LogicalOperator), LogicalOperator.fromValue s = some e → e.value = s) ∧
    (∀ e : MigrationDirection, MigrationDirection.fromValue e.value = some e) ∧
    (∀ (s : String) (e : MigrationDirection),
      MigrationDirection.fromValue s = some e → e.value = s) ∧
    (∀ e : IsolationLevel, IsolationLevel.fromValue e.value = some e) ∧
    (∀ (s : String) (e : IsolationLevel), IsolationLevel.fromValue s = some e → e.value = s) ∧
    (∀ e : RelationshipType, RelationshipType.fromValue e.value = some e) ∧
    (∀ (s : String) (e : RelationshipType),
      RelationshipType.fromValue s = some e → e.value = s) ∧
    ComparisonOperator.value .EQ = "=" ∧
    IsolationLevel.value .SERIALIZABLE = "SERIALIZABLE" := by
  refine ⟨fun e => by cases e <;> rfl,
    fun s e h => enumLookup_sound ConflictAction.value ConflictAction.members s e h,
    fun e => by cases e <;> rfl,
    fun s e h => enumLookup_sound FieldType.value FieldType.members s e h,
    fun e => by cases e <;> rfl,
    fun s e h => enumLookup_sound JoinType.value JoinType.members s e h,
    fun e => by cases e <;> rfl,
    fun s e h => enumLookup_sound ComparisonOperator.value ComparisonOperator.members s e h,
    fun e => by cases e <;> rfl,
    fun s e h => enumLookup_sound LogicalOperator.value LogicalOperator.members s e h,
    fun e => by cases e <;> rfl,
    fun s e h => enumLookup_sound MigrationDirection.value MigrationDirection.members s e h,
    fun e => by cases e <;> rfl,
    fun s e h => enumLookup_sound IsolationLevel.value IsolationLevel.members s e h,
    fun e => by cases e <;> rfl,
    fun s e h => enumLookup_sound RelationshipType.value RelationshipType.members s e h,
    rfl, rfl⟩

/-- C9 witness: each vocabulary's soundness direction applied at a concrete
literal of that vocabulary. -/
theorem enum_vocabulary_roundtrip_witness :
    ConflictAction.value .DO_NOTHING = "DO NOTHING" ∧
    FieldType.value .TEXT = "TEXT" ∧
    JoinType.value .INNER = "INNER JOIN" ∧
    ComparisonOperator.value .EQ = "=" ∧
    LogicalOperator.value .AND = "AND" ∧
    MigrationDirection.value .UP = "up" ∧
    IsolationLevel.value .SERIALIZABLE = "SERIALIZABLE" ∧
    RelationshipType.value .ONE_TO_ONE = "one-to-one" := by
  obtain ⟨r1, s1, r2, s2, r3, s3, r4, s4, r5, s5, r6, s6, r7, s7, r8, s8, l1, l2⟩ :=
    enum_vocabulary_roundtrip
  exact ⟨s1 "DO NOTHING" .DO_NOTHING (by decide),
    s2 "TEXT" .TEXT (by decide),
    s3 "INNER JOIN" .INNER (by decide),
    s4 "=" .EQ (by decide),
    s5 "AND" .AND (by decide),
    s6 "up" .UP (by decide),
    s7 "SERIALIZABLE" .SERIALIZABLE (by decide),
    s8 "one-to-one" .ONE_TO_ONE (by decide)⟩

/-- C10: truthiness, length, first and last of a QueryResult depend only on
the row list, never on the affected-row count: two results built from the
same rows and any two counts agree on all four observations. -/
theorem query_result_independent_of_affected_rows (data : List RowData) (a b : Int) :
    QueryResult.py_bool { data := data, affected_rows := a }
      = QueryResult.py_bool { data := data, affected_rows := b } ∧
    QueryResult.py_len { data := data, affected_rows := a }
      = QueryResult.py_len { data := data, affected_rows := b } ∧
    QueryResult.first { data := data, affected_rows := a }
      = QueryResult.first { data := data, affected_rows := b } ∧
    QueryResult.last { data := data, affected_rows := a }
      = QueryResult.last { data := data, affected_rows := b } :=
  ⟨rfl, rfl, rfl, rfl⟩

end Pgpx
